import Mathlib

/-!
Shallow embedding of `src/pyworkflow/protocol/launch.py` (the job launch and
lifecycle control subsystem of scipion-pyworkflow) and proofs about it.

The repository is Python 2 code (its other modules use Python 2 print
statements and implicit relative imports), so `str` applied to captured
process output is the identity, `re.search` with a text pattern works on the
captured output directly, and `bytes.decode()` uses the ASCII codec by
default.

External process interaction is modelled by a `World` oracle assigning to
every command line the behaviour (stdout, stderr, return code, pid) of the
process it would spawn, and by an explicit trace of `Effect`s (spawn, wait,
kill, filesystem operations, printed messages).  The filesystem is a pair of
a directory set and a path-to-contents map.  Functions that can raise return
`Except PyErr`.
-/

set_option autoImplicit false

deriving instance DecidableEq for Except

namespace Pw

/-- Python exceptions that the embedded code can raise. -/
inductive PyErr where
  | keyError (key : String)
  | ioError (path : String)
  | unicodeDecodeError
  | exception (msg : String)
  deriving DecidableEq, Repr

/-- Key-value mapping with string keys and values, modelling a Python dict
through its lookup function (first binding wins). -/
abbrev Dict := List (String × String)

/-- Lookup in a `Dict`: the first binding of the key, `none` when absent
(Python raises `KeyError` there; callers turn `none` into `PyErr.keyError`). -/
def dictGet : Dict → String → Option String
  | [], _ => none
  | (k', v) :: rest, k => if k' = k then some v else dictGet rest k

/-- Replace the binding of a key in an association list, appending it when
absent.  Used for the file map of the filesystem model (`open(path, 'w')`
truncates, i.e. overwrites). -/
def setAssoc : List (String × String) → String → String → List (String × String)
  | [], k, v => [(k, v)]
  | (k', v') :: rest, k, v =>
      if k' = k then (k, v) :: rest else (k', v') :: setAssoc rest k v

/-- One piece of a Python percent-format template: literal text or a
placeholder `%(NAME)s`. -/
inductive TmplPart where
  | lit (s : String)
  | ph (name : String)
  deriving DecidableEq, Repr

/-- Template strings (submission script, submission command, cancel command)
as the sequence of their literal and placeholder parts. -/
abbrev Template := List TmplPart

/-- Python `template % mapping`: substitute every placeholder from the
mapping, raising `KeyError` at the first placeholder absent from it
(evaluated left to right, exactly as the percent operator does). -/
def renderTemplate : Template → Dict → Except PyErr String
  | [], _ => Except.ok ""
  | TmplPart.lit s :: rest, d =>
      match renderTemplate rest d with
      | Except.ok t => Except.ok (s ++ t)
      | Except.error e => Except.error e
  | TmplPart.ph k :: rest, d =>
      match dictGet d k with
      | some v =>
          match renderTemplate rest d with
          | Except.ok t => Except.ok (v ++ t)
          | Except.error e => Except.error e
      | none => Except.error (PyErr.keyError k)

/-- Longest run of decimal digits at the head of the character list
(the greedy `\d+` of the regular expressions in the source). -/
def leadingDigits : List Char → List Char
  | [] => []
  | c :: rest => if c.isDigit then c :: leadingDigits rest else []

/-- Does the first list stand at the head of the second one? -/
def startsWithChars : List Char → List Char → Bool
  | [], _ => true
  | _ :: _, [] => false
  | p :: ps, s :: ss => p = s && startsWithChars ps ss

/-- Numeric value of a digit run (Python `int` of the matched text). -/
def natOfDigits (ds : List Char) : Nat :=
  ds.foldl (fun acc c => 10 * acc + (c.toNat - 48)) 0

/-- Python `re.search(marker + digits-group, s)` for a literal marker
followed by `(\d+)`: scan positions left to right, succeed at the first
position where the marker is followed by at least one digit, and return the
numeric value of the maximal digit run there.  With `marker = []` this is
`re.search('(\d+)', s)`: the value of the first run of decimal digits. -/
def searchMarkerNum (marker : List Char) : List Char → Option Nat
  | [] => none
  | c :: rest =>
      if startsWithChars marker (c :: rest) then
        match leadingDigits ((c :: rest).drop marker.length) with
        | [] => searchMarkerNum marker rest
        | d :: ds => some (natOfDigits (d :: ds))
      else searchMarkerNum marker rest

/-- Split a character list at every slash, keeping empty components. -/
def splitOnSlash : List Char → List (List Char)
  | [] => [[]]
  | c :: rest =>
      if c = '/' then [] :: splitOnSlash rest
      else
        match splitOnSlash rest with
        | [] => [[c]]
        | g :: gs => (c :: g) :: gs

/-- Join path components with slashes (inverse of `splitOnSlash`). -/
def joinSlash : List (List Char) → List Char
  | [] => []
  | [g] => g
  | g :: gs => g ++ '/' :: joinSlash gs

/-- Directory part of a path, the Python `os.path.dirname`:
everything before the last slash ("" for a bare file name). -/
def parentOf (p : String) : String :=
  String.mk (joinSlash (splitOnSlash p.data).dropLast)

/-- Python `os.path.basename`: the part after the last slash. -/
def basename (p : String) : String :=
  String.mk (((splitOnSlash p.data).reverse).headD [])

/-- Nonempty prefixes of a list, shortest first. -/
def prefixesNE {α : Type} : List α → List (List α)
  | [] => []
  | x :: xs => [x] :: (prefixesNE xs).map (fun g => x :: g)

/-- Every ancestor directory of a file path: the chain of component
prefixes of its directory part. -/
def ancestorsOf (p : String) : List String :=
  (prefixesNE (splitOnSlash p.data).dropLast).map
    (fun g => String.mk (joinSlash g))

/-- Filesystem model: the set of existing directories and the contents of
existing files. -/
structure FS where
  dirs : List String
  files : List (String × String)
  deriving DecidableEq, Repr

/-- Does a directory exist?  The current directory (empty path) always
does. -/
def dirExists (fs : FS) (d : String) : Bool :=
  d = "" || fs.dirs.contains d

/-- Create or overwrite a file (contents keyed by path). -/
def setFile (fs : FS) (p c : String) : FS :=
  { fs with files := setAssoc fs.files p c }

/-- Modelled from the spec: `makeFilePath` from `pyworkflow.utils` (the
module is outside src/) "creates any missing parent directories" of the
given file path. -/
def makeFilePath (fs : FS) (path : String) : FS :=
  { fs with dirs := ancestorsOf path ++ fs.dirs }

/-- Observable effects of the embedded code: process spawns (with which
standard streams are piped), waits for a spawned process to exit
(`communicate` / `wait`), process-tree kills, filesystem operations and
printed messages. -/
inductive Effect where
  | spawn (cmd : String) (stdoutPiped : Bool) (stderrPiped : Bool)
  | waitFor (cmd : String)
  | kill (pid : Nat)
  | fsOpenW (path : String)
  | mkdirs (path : String)
  | fsWrite (path : String) (text : String)
  | msg (text : String)
  deriving DecidableEq, Repr

/-- Is the effect a wait-for-exit of a spawned process? -/
def isWaitEff : Effect → Bool
  | Effect.waitFor _ => true
  | _ => false

/-- Is the effect a process spawn? -/
def isSpawnEff : Effect → Bool
  | Effect.spawn _ _ _ => true
  | _ => false

/-- Is the effect a file write? -/
def isWriteEff : Effect → Bool
  | Effect.fsWrite _ _ => true
  | _ => false

/-- Does the trace contain a wait-for-exit? -/
def hasWait (t : List Effect) : Bool := t.any isWaitEff

/-- Does the trace contain a process spawn? -/
def hasSpawn (t : List Effect) : Bool := t.any isSpawnEff

/-- Does the trace contain a file write? -/
def hasWrite (t : List Effect) : Bool := t.any isWriteEff

/-- Behaviour of the process a command line would spawn: its captured
standard output and error text, exit status and pid. -/
structure ProcBehavior where
  stdout : String
  stderr : String
  returncode : Int
  pid : Nat
  deriving DecidableEq, Repr

/-- Oracle for external processes: what spawning each command line does. -/
structure World where
  procs : String → ProcBehavior

/-- A spawned process handle: the command and which streams `Popen` was
asked to pipe (`stdout=PIPE` pipes stdout; a stream not piped is
inherited, so `communicate` returns `None` for it). -/
structure PopenHandle where
  cmd : String
  stdoutPiped : Bool
  stderrPiped : Bool
  deriving DecidableEq, Repr

/-- Python `p.communicate()`: wait for the process and return the pair of
captured streams, `none` standing for Python `None` on a stream that was
not piped. -/
def communicate (w : World) (p : PopenHandle) : Option String × Option String :=
  ((if p.stdoutPiped then some (w.procs p.cmd).stdout else none),
   (if p.stderrPiped then some (w.procs p.cmd).stderr else none))

/-- Python truthiness of an optional string: `None` and the empty string
are falsy. -/
def optTruthy : Option String → Bool
  | none => false
  | some s => s ≠ ""

/-- Modelled from the spec: ANSI colour wrapper `greenStr` from
`pyworkflow.utils` (outside src/); the colouring is cosmetic, so it is
modelled as the identity on the text. -/
def greenStr (s : String) : String := s

/-- Modelled from the spec: ANSI colour wrapper `redStr` from
`pyworkflow.utils` (outside src/), modelled as the identity on the text. -/
def redStr (s : String) : String := s

/-- Modelled from the spec: the sentinel UNKNOWN job id
(`UNKNOWN_JOBID` from `pyworkflow.protocol.constants`, outside src/).  The
spec calls it "a sentinel UNKNOWN value"; it is distinct from every parsed
id, parsed ids being nonnegative digit runs. -/
def UNKNOWN_JOBID : Int := -1

/-- Modelled from the spec: the `pw.PYTHON` interpreter constant of the
pyworkflow package (outside src/); its exact value is environment
dependent and irrelevant to the claims. -/
def PYTHON : String := "python"

/-- Modelled from the spec: the `pw.APPS` folder constant of the
pyworkflow package (outside src/). -/
def APPS : String := "pyworkflow/apps"

/-- Is every character plain ASCII?  Python 2 `str.decode()` with the
default codec succeeds exactly on ASCII data. -/
def asciiOnly (s : String) : Bool := s.data.all (fun c => c.toNat < 128)

/-- Python 2 `str.decode()` (default ASCII codec): the text itself on
ASCII input, `UnicodeDecodeError` otherwise. -/
def pyDecode (s : String) : Except PyErr String :=
  if asciiOnly s then Except.ok s else Except.error PyErr.unicodeDecodeError

/-- Immutable descriptor of an execution target, as read by this module:
network address, remote installation root, optional remote configuration
file, the submission command and script templates, the cancellation
command template, and the default queue parameters. -/
structure HostConfig where
  address : String
  scipionHome : String
  scipionConfig : Option String
  submitTemplate : Template
  submitCommand : Template
  cancelCommand : Template
  queuesDefault : Dict

/-- The state a protocol (the caller-owned Job) exposes to this module:
host name, host configuration, queue request flag, submission dictionary,
scheduled flag, recorded job id and pid, and the identifying paths used to
build command lines. -/
structure Protocol where
  hostName : String
  hostConfig : HostConfig
  useQueue : Bool
  submitDict : Dict
  isScheduled : Bool
  jobId : Int
  pid : Nat
  projectPath : String
  dbPath : String
  strId : String
  objId : Nat

/-- Embedding of `_isLocal` (launch.py line 98): the protocol is local
exactly when its host name is the literal `localhost`. -/
def _isLocal (p : Protocol) : Bool := p.hostName = "localhost"

/-- Embedding of `_run` (launch.py line 239): print the command, spawn it
with neither stream piped (caller-supplied redirections), return its pid,
and wait for it only when asked to. -/
def _run (command : String) (wait : Bool) (w : World) : Int × List Effect :=
  (Int.ofNat (w.procs command).pid,
   [Effect.msg ("** Running command: '" ++ greenStr command ++ "'"),
    Effect.spawn command false false]
     ++ (if wait then [Effect.waitFor command] else []))

/-- Embedding of the command string built in `_launchLocal` (launch.py
line 120): interpreter, the `pw_protocol_run.py` app, quoted project path
and db path, and the protocol id. -/
def launchCommand (p : Protocol) : String :=
  PYTHON ++ " " ++ APPS ++ "/pw_protocol_run.py" ++ " \"" ++ p.projectPath
    ++ "\" \"" ++ p.dbPath ++ "\" " ++ p.strId

/-- Embedding of the dictionary merge in `_launchLocal` (launch.py lines
128-130): host queue defaults, overridden by the protocol submission
dictionary, overridden by the `JOB_COMMAND` binding (first binding wins in
`dictGet`, so later overrides stand first). -/
def mergedSubmitDict (p : Protocol) : Dict :=
  ("JOB_COMMAND", launchCommand p) :: (p.submitDict ++ p.hostConfig.queuesDefault)

/-- Warning text printed by `_submit` when no job id can be parsed
(launch.py line 235); building it decodes the captured output. -/
def submitWarnMsg (out : String) : String :=
  "Couldn't submit to queue for reason: " ++ redStr out ++ " "

/-- Failure tail of `_submit` (launch.py lines 234-236): decode the
captured output for the warning (ASCII codec, so a non-ASCII byte raises
`UnicodeDecodeError`), print the warning and return `UNKNOWN_JOBID`. -/
def submitFail (out : String) (fs : FS) (effs : List Effect) :
    Except PyErr Int × FS × List Effect :=
  if asciiOnly out then
    (Except.ok UNKNOWN_JOBID, fs, effs ++ [Effect.msg (submitWarnMsg out)])
  else
    (Except.error PyErr.unicodeDecodeError, fs, effs)

/-- Embedding of `_submit` (launch.py lines 204-236).  Renders the script
template, opens the script file for writing BEFORE calling `makeFilePath`
(the source carries a FIXME "CREATE THE PATH FIRST"; an open in a missing
directory raises IOError), writes the script followed by a blank line,
renders the submission command (only after the write), spawns it with
stdout piped, waits, and parses the first decimal digit run of `str(out)`
(the identity on Python 2 str) as the job id when the exit status is zero;
otherwise falls through to the warning path. -/
def _submit (cfg : HostConfig) (submitDict : Dict) (w : World) (fs : FS) :
    Except PyErr Int × FS × List Effect :=
  match renderTemplate cfg.submitTemplate submitDict with
  | Except.error e => (Except.error e, fs, [])
  | Except.ok template =>
    match dictGet submitDict "JOB_SCRIPT" with
    | none => (Except.error (PyErr.keyError "JOB_SCRIPT"), fs, [])
    | some scripPath =>
      if dirExists fs (parentOf scripPath) then
        let fs2 := setFile (makeFilePath (setFile fs scripPath "") scripPath)
                     scripPath (template ++ "\n\n")
        let eff1 := [Effect.fsOpenW scripPath, Effect.mkdirs scripPath,
                     Effect.fsWrite scripPath (template ++ "\n\n")]
        match renderTemplate cfg.submitCommand submitDict with
        | Except.error e => (Except.error e, fs2, eff1)
        | Except.ok command =>
          let eff2 := eff1 ++
            [Effect.msg ("** Submitting to queue: '" ++ greenStr command ++ "'"),
             Effect.spawn command true false, Effect.waitFor command]
          match searchMarkerNum [] (w.procs command).stdout.data with
          | some jobNum =>
            if (w.procs command).returncode = 0 then
              (Except.ok (Int.ofNat jobNum), fs2,
               eff2 ++ [Effect.msg ("Launched job with id " ++ toString jobNum)])
            else submitFail (w.procs command).stdout fs2 eff2
          | none => submitFail (w.procs command).stdout fs2 eff2
      else (Except.error (PyErr.ioError scripPath), fs, [])

/-- Embedding of `_launchLocal` (launch.py lines 118-135): build the run
command; when the protocol uses the queue AND its submission dictionary
maps `QUEUE_FOR_JOBS` to "N", merge the dictionaries and submit; otherwise
run the command directly.  A missing `QUEUE_FOR_JOBS` key raises KeyError
(Python `and` short-circuits, so the key is only read when `useQueue`). -/
def _launchLocal (p : Protocol) (wait : Bool) (w : World) (fs : FS) :
    Except PyErr Int × FS × List Effect :=
  let command := launchCommand p
  if p.useQueue then
    match dictGet p.submitDict "QUEUE_FOR_JOBS" with
    | none => (Except.error (PyErr.keyError "QUEUE_FOR_JOBS"), fs, [])
    | some v =>
      if v = "N" then _submit p.hostConfig (mergedSubmitDict p) w fs
      else
        let r := _run command wait w
        (Except.ok r.1, fs, r.2)
  else
    let r := _run command wait w
    (Except.ok r.1, fs, r.2)

/-- Embedding of the remote-shell command string built in `_runRemote`
(launch.py lines 145-165): ssh to the host address, quote the remote
scipion invocation, pass the configuration file only when present, and
hand over the mode, project base name, db path and protocol id. -/
def remoteCmd (p : Protocol) (mode : String) : String :=
  "ssh " ++ p.hostConfig.address ++ " '" ++ p.hostConfig.scipionHome
    ++ "/scipion "
    ++ (match p.hostConfig.scipionConfig with
        | some c => "--config " ++ c ++ " "
        | none => "")
    ++ "runprotocol pw_protocol_remote.py " ++ mode ++ " "
    ++ basename p.projectPath ++ " " ++ p.dbPath ++ " "
    ++ toString p.objId ++ "' "

/-- Embedding of `_runRemote` (launch.py lines 138-169): print and spawn
the remote command with ONLY stdout piped (there is no stderr=PIPE in the
source), returning the process handle without waiting for it. -/
def _runRemote (p : Protocol) (mode : String) : PopenHandle × List Effect :=
  let cmd := remoteCmd p mode
  ({ cmd := cmd, stdoutPiped := true, stderrPiped := false },
   [Effect.msg ("** Running remote: " ++ greenStr cmd),
    Effect.spawn cmd true false])

/-- The fixed marker `re.search('Scipion remote jobid: (\d+)', out)` looks
for in `_launchRemote` (launch.py line 178). -/
def remoteMarker : List Char := "Scipion remote jobid: ".data

/-- Embedding of `_launchRemote` (launch.py lines 172-184): communicate
with the spawned remote process (blocking), raise when `err` is truthy
(it never is: stderr is not piped, so `err` is Python `None`), then parse
the job id after the fixed marker, raising on stdout with no match. -/
def _launchRemote (p : Protocol) (w : World) :
    Except PyErr Int × List Effect :=
  let pr := _runRemote p "run"
  let oe := communicate w pr.1
  let out := oe.1.getD ""
  let res : Except PyErr Int :=
    if optTruthy oe.2 then Except.error (PyErr.exception (oe.2.getD ""))
    else
      match searchMarkerNum remoteMarker out.data with
      | some n => Except.ok (Int.ofNat n)
      | none =>
          Except.error (PyErr.exception ("** Couldn't parse ouput: " ++ redStr out))
  (res, pr.2 ++ [Effect.waitFor pr.1.cmd])

/-- Embedding of `launch` (launch.py lines 58-69): local protocols go to
`_launchLocal`, the rest to `_launchRemote`. -/
def launch (p : Protocol) (wait : Bool) (w : World) (fs : FS) :
    Except PyErr Int × FS × List Effect :=
  if _isLocal p then _launchLocal p wait w fs
  else
    let r := _launchRemote p w
    (r.1, fs, r.2)

/-- Embedding of `_stopLocal` (launch.py lines 256-263): when the protocol
uses the queue and is NOT scheduled, render the cancel command with the
recorded job id and run it synchronously; otherwise (including the queued
and still scheduled case) kill the process tree of the recorded pid
(`process.killWithChilds`, modelled from the spec as the `kill` effect,
tolerant of a process that is already gone). -/
def _stopLocal (p : Protocol) (w : World) : Except PyErr Unit × List Effect :=
  if p.useQueue && !p.isScheduled then
    match renderTemplate p.hostConfig.cancelCommand [("JOB_ID", toString p.jobId)] with
    | Except.error e => (Except.error e, [])
    | Except.ok cancelCmd => (Except.ok (), (_run cancelCmd true w).2)
  else (Except.ok (), [Effect.kill p.pid])

/-- Embedding of `_stopRemote` (launch.py lines 266-267): spawn the remote
stop command and return at once, discarding the process handle — nothing
waits for it. -/
def _stopRemote (p : Protocol) : List Effect :=
  (_runRemote p "stop").2

/-- Embedding of `stop` (launch.py lines 72-78): local protocols go to
`_stopLocal`, the rest to `_stopRemote`. -/
def stop (p : Protocol) (w : World) : Except PyErr Unit × List Effect :=
  if _isLocal p then _stopLocal p w
  else (Except.ok (), _stopRemote p)

/-- The three execution-strategy branches a launch can take. -/
inductive LaunchBranch where
  | localQueued
  | localDirect
  | remote
  deriving DecidableEq, Repr

/-- The three branches a stop can take. -/
inductive StopBranch where
  | queueCancel
  | killTree
  | remoteStop
  deriving DecidableEq, Repr

/-- Branch selected by `launch` (lines 62-65 and 127), read off the same
conditions the code tests: locality from `_isLocal`, then the queue branch
from `useQueue` and the `QUEUE_FOR_JOBS` entry of the submission dict. -/
def launchBranchOf (p : Protocol) : LaunchBranch :=
  if _isLocal p then
    if p.useQueue = true ∧ dictGet p.submitDict "QUEUE_FOR_JOBS" = some "N" then
      LaunchBranch.localQueued
    else LaunchBranch.localDirect
  else LaunchBranch.remote

/-- Branch selected by `stop` (lines 75-78 and 257), read off the same
conditions the code tests: locality from `_isLocal`, then the cancel
branch from `useQueue` and the scheduled flag. -/
def stopBranchOf (p : Protocol) : StopBranch :=
  if _isLocal p then
    if p.useQueue = true ∧ p.isScheduled = false then StopBranch.queueCancel
    else StopBranch.killTree
  else StopBranch.remoteStop

/-- Correspondence of launch and stop branches: each launch strategy with
the stop procedure that undoes it. -/
def branchAgrees : LaunchBranch → StopBranch → Bool
  | LaunchBranch.localQueued, StopBranch.queueCancel => true
  | LaunchBranch.localDirect, StopBranch.killTree => true
  | LaunchBranch.remote, StopBranch.remoteStop => true
  | _, _ => false

/-- Sanity lemma tying `launchBranchOf` to the `launch` embedding: on the
local-queued branch, `launch` is exactly the queue submission with the
merged dictionary. -/
theorem launch_localQueued_is_submit (p : Protocol) (wait : Bool) (w : World)
    (fs : FS) (h : launchBranchOf p = LaunchBranch.localQueued) :
    launch p wait w fs = _submit p.hostConfig (mergedSubmitDict p) w fs := by
  unfold launchBranchOf at h
  by_cases hL : _isLocal p
  · rw [if_pos hL] at h
    by_cases hc : p.useQueue = true ∧ dictGet p.submitDict "QUEUE_FOR_JOBS" = some "N"
    · unfold launch _launchLocal
      rw [if_pos hL, hc.1, hc.2]
      simp
    · rw [if_neg hc] at h
      exact absurd h (by simp)
  · rw [if_neg hL] at h
    exact absurd h (by simp)

/-- Sanity lemma tying `stopBranchOf` to the `stop` embedding: on the
kill-tree branch, `stop` kills the process tree of the recorded pid and
does nothing else. -/
theorem stop_killTree_kills (p : Protocol) (w : World)
    (hL : _isLocal p = true) (h : stopBranchOf p = StopBranch.killTree) :
    stop p w = (Except.ok (), [Effect.kill p.pid]) := by
  unfold stopBranchOf at h
  rw [if_pos hL] at h
  by_cases hc : p.useQueue = true ∧ p.isScheduled = false
  · rw [if_pos hc] at h
    exact absurd h (by simp)
  · unfold stop _stopLocal
    rw [if_pos hL]
    have hb : (p.useQueue && !p.isScheduled) = false := by
      cases hq : p.useQueue with
      | false => simp
      | true =>
        cases hs : p.isScheduled with
        | false => exact absurd ⟨hq, hs⟩ hc
        | true => simp [hs]
    rw [hb]
    simp

/-- Default process behaviour for concrete worlds: empty output, exit 0. -/
def defaultBeh : ProcBehavior :=
  { stdout := "", stderr := "", returncode := 0, pid := 0 }

/-- Concrete world in which every command behaves like `defaultBeh`. -/
def w0 : World := { procs := fun _ => defaultBeh }

/-- Concrete host configuration of a remote cluster. -/
def exCfg : HostConfig :=
  { address := "cluster.example.org",
    scipionHome := "/opt/scipion",
    scipionConfig := none,
    submitTemplate := [TmplPart.lit "#!/bin/bash"],
    submitCommand := [TmplPart.lit "qsub ", TmplPart.ph "JOB_SCRIPT"],
    cancelCommand := [TmplPart.lit "qdel ", TmplPart.ph "JOB_ID"],
    queuesDefault := [] }

/-- Concrete host configuration of the local host (empty address). -/
def localCfg : HostConfig :=
  { address := "",
    scipionHome := "/opt/scipion",
    scipionConfig := none,
    submitTemplate := [TmplPart.lit "#!/bin/bash"],
    submitCommand := [TmplPart.lit "qsub ", TmplPart.ph "JOB_SCRIPT"],
    cancelCommand := [TmplPart.lit "qdel ", TmplPart.ph "JOB_ID"],
    queuesDefault := [] }

/-- Local protocol that requests the queue but whose submission dictionary
maps QUEUE_FOR_JOBS to "Y", and that is not scheduled. -/
def exP1 : Protocol :=
  { hostName := "localhost", hostConfig := localCfg, useQueue := true,
    submitDict := [("QUEUE_FOR_JOBS", "Y"), ("JOB_SCRIPT", "run1/job.sh")],
    isScheduled := false, jobId := -1, pid := 10,
    projectPath := "projects/proj1", dbPath := "run.db", strId := "2",
    objId := 2 }

/-- Local protocol that requests the queue and is still scheduled. -/
def exP2 : Protocol :=
  { hostName := "localhost", hostConfig := localCfg, useQueue := true,
    submitDict := [("QUEUE_FOR_JOBS", "N"), ("JOB_SCRIPT", "run1/job.sh")],
    isScheduled := true, jobId := -1, pid := 42,
    projectPath := "projects/proj1", dbPath := "run.db", strId := "2",
    objId := 2 }

/-- Protocol whose host NAME is localhost while its host config carries a
nonempty remote address. -/
def exP3 : Protocol :=
  { hostName := "localhost", hostConfig := exCfg, useQueue := false,
    submitDict := [], isScheduled := false, jobId := -1, pid := 10,
    projectPath := "projects/proj1", dbPath := "run.db", strId := "2",
    objId := 2 }

/-- Remote protocol (host name distinct from localhost). -/
def exP4 : Protocol :=
  { hostName := "cluster", hostConfig := exCfg, useQueue := false,
    submitDict := [], isScheduled := false, jobId := -1, pid := 10,
    projectPath := "projects/proj1", dbPath := "run.db", strId := "7",
    objId := 7 }

/-- C1, counterexample.  The claim says the predicate selecting the queue
branch at launch equals the predicate selecting the queue-cancel branch at
stop.  For `exP1` (local, queue requested, QUEUE_FOR_JOBS = "Y", not
scheduled) launch takes the direct branch (line 127 tests
QUEUE_FOR_JOBS == "N") while stop takes the queue-cancel branch (line 257
tests `useQueue and not isScheduled`), so the two predicates differ at an
unchanged protocol. -/
theorem C1_counterexample :
    branchAgrees (launchBranchOf exP1) (stopBranchOf exP1) = false ∧
    launchBranchOf exP1 = LaunchBranch.localDirect ∧
    stopBranchOf exP1 = StopBranch.queueCancel := by decide

/-- C1, amended.  Launch and stop always agree on the local/remote split
(both re-derive it through `_isLocal`), but within the local case their
queue predicates differ: launch tests `useQueue` and QUEUE_FOR_JOBS = "N",
stop tests `useQueue` and the scheduled flag.  The branches agree exactly
when the protocol is remote, does not use the queue, or satisfies
(QUEUE_FOR_JOBS = "N" iff not scheduled). -/
theorem C1_branch_agreement (p : Protocol)
    (hk : p.useQueue = true → (dictGet p.submitDict "QUEUE_FOR_JOBS").isSome = true) :
    branchAgrees (launchBranchOf p) (stopBranchOf p) = true ↔
      (_isLocal p = false ∨ p.useQueue = false ∨
        ((dictGet p.submitDict "QUEUE_FOR_JOBS" = some "N") ↔
          p.isScheduled = false)) := by
  cases hL : _isLocal p with
  | false => simp [launchBranchOf, stopBranchOf, hL, branchAgrees]
  | true =>
    cases hq : p.useQueue with
    | false => simp [launchBranchOf, stopBranchOf, hL, hq, branchAgrees]
    | true =>
      cases hd : dictGet p.submitDict "QUEUE_FOR_JOBS" with
      | none => exact absurd (hk hq) (by simp [hd])
      | some v =>
        by_cases hv : v = "N" <;>
          cases hs : p.isScheduled <;>
            simp [launchBranchOf, stopBranchOf, hL, hq, hd, hs, branchAgrees, hv]

/-- C1, witness for the amended theorem at a concrete protocol: `exP2` is
local, uses the queue with QUEUE_FOR_JOBS = "N" but is still scheduled, so
the branches disagree there as well. -/
theorem C1_branch_agreement_witness :
    ¬ (branchAgrees (launchBranchOf exP2) (stopBranchOf exP2) = true) := by
  rw [C1_branch_agreement exP2 (by decide)]
  decide

/-- C5, counterexample.  The claim says stop on a local, queue-requesting,
still-scheduled job is a no-op.  On `exP2` (exactly that shape) `stop`
falls into the else branch of `_stopLocal` (line 262) and issues a
process-tree kill of the recorded pid. -/
theorem C5_counterexample :
    (stop exP2 w0).2 = [Effect.kill 42] ∧
    _isLocal exP2 = true ∧ exP2.useQueue = true ∧ exP2.isScheduled = true := by
  decide

/-- C5, amended.  For every local job that requested queue submission and
is still scheduled, stop issues no queue cancellation but is NOT a no-op:
it performs a process-tree kill (`killWithChilds`) of the recorded pid. -/
theorem C5_scheduled_stop_kills (p : Protocol) (w : World)
    (hL : _isLocal p = true) (hq : p.useQueue = true)
    (hs : p.isScheduled = true) :
    stop p w = (Except.ok (), [Effect.kill p.pid]) := by
  unfold stop _stopLocal
  simp [hL, hq, hs]

/-- C5, witness: the amended theorem applied to the concrete `exP2`. -/
theorem C5_scheduled_stop_kills_witness :
    stop exP2 w0 = (Except.ok (), [Effect.kill 42]) :=
  C5_scheduled_stop_kills exP2 w0 (by decide) (by decide) (by decide)

/-- C8, counterexample.  The claim says a job is treated as local iff the
host address is empty.  `exP3` carries the nonempty address
cluster.example.org yet is treated as local, because `_isLocal` (line 98)
compares the host NAME with the literal localhost and never reads the
address. -/
theorem C8_counterexample :
    _isLocal exP3 = true ∧ launchBranchOf exP3 = LaunchBranch.localDirect ∧
    exP3.hostConfig.address = "cluster.example.org" ∧
    ¬ (exP3.hostConfig.address = "") := by decide

/-- C8, amended.  The execution strategy is selected from the protocol's
host name (remote iff it differs from the literal localhost) together with
the queue flags; the HostConfig address plays no part: replacing it by any
string leaves the selected branch unchanged. -/
theorem C8_locality_from_hostname (p : Protocol) (a : String) :
    (launchBranchOf p = LaunchBranch.remote ↔ ¬ (p.hostName = "localhost")) ∧
    launchBranchOf
        { p with hostConfig := { p.hostConfig with address := a } } =
      launchBranchOf p := by
  constructor
  · unfold launchBranchOf _isLocal
    by_cases h : p.hostName = "localhost"
    · rw [if_pos (by simp [h])]
      constructor
      · intro hbr
        split at hbr <;> simp at hbr
      · intro hn
        exact absurd h hn
    · rw [if_neg (by simp [h])]
      simp [h]
  · rfl

/-- Behaviour of a remote run that reports a job id on stdout with empty
stderr. -/
def remoteOkBeh : ProcBehavior :=
  { stdout := "Scipion remote jobid: 987\n", stderr := "", returncode := 0,
    pid := 5 }

/-- Behaviour of a remote run that reports a job id on stdout while also
writing an error to stderr. -/
def remoteErrBeh : ProcBehavior :=
  { stdout := "Scipion remote jobid: 987\n", stderr := "permission denied",
    returncode := 1, pid := 5 }

/-- World in which the remote run command of `exP4` succeeds with a job id
line and empty stderr. -/
def w4 : World :=
  { procs := fun c => if c = remoteCmd exP4 "run" then remoteOkBeh else defaultBeh }

/-- World in which the remote run command of `exP4` prints a job id on
stdout but also "permission denied" on stderr. -/
def w2 : World :=
  { procs := fun c => if c = remoteCmd exP4 "run" then remoteErrBeh else defaultBeh }

/-- C2, code-bug evaluation.  In the world `w2` the remote helper writes
"permission denied" to stderr, yet `_launchRemote` returns the parsed job
id 987: `_runRemote` pipes only stdout (no stderr=PIPE at line 167), so
`communicate` yields `err = None` and the `if err: raise` check at line
176 can never fire.  The claim (and that dead check) expect the stderr
text to surface as an error. -/
theorem C2_bug_eval :
    (w2.procs (remoteCmd exP4 "run")).stderr = "permission denied" ∧
    (_runRemote exP4 "run").1.stderrPiped = false ∧
    (_launchRemote exP4 w2).1 = Except.ok (Int.ofNat 987) := by decide

/-- C4, confirmed.  For a remote dispatch in run mode with empty stderr:
when stdout contains the fixed marker "Scipion remote jobid: " followed by
a decimal run (first such occurrence, value n), the dispatch returns n;
when stdout has no such match it fails with an exception carrying the raw
stdout.  It never returns a job id silently defaulted to UNKNOWN. -/
theorem C4_remote_run_parse (p : Protocol) (w : World) (n : Nat)
    (hs : (w.procs (remoteCmd p "run")).stderr = "") :
    (searchMarkerNum remoteMarker (w.procs (remoteCmd p "run")).stdout.data = some n →
      (_launchRemote p w).1 = Except.ok (Int.ofNat n)) ∧
    (searchMarkerNum remoteMarker (w.procs (remoteCmd p "run")).stdout.data = none →
      (_launchRemote p w).1 =
        Except.error (PyErr.exception
          ("** Couldn't parse ouput: "
            ++ redStr (w.procs (remoteCmd p "run")).stdout))) := by
  constructor <;> intro h <;>
    simp [_launchRemote, _runRemote, communicate, optTruthy, h]

/-- C4, witness: the theorem applied to the concrete remote protocol
`exP4` in the world `w4` yields job id 987 out of the stdout line
"Scipion remote jobid: 987". -/
theorem C4_remote_run_parse_witness :
    (_launchRemote exP4 w4).1 = Except.ok (Int.ofNat 987) :=
  (C4_remote_run_parse exP4 w4 987 (by decide)).1 (by decide)

/-- C9, counterexample.  The claim says every Remote Dispatcher
invocation, in stop mode too, blocks until the spawned helper exits.  For
the concrete remote protocol `exP4`, `stop` spawns the ssh helper but its
trace contains no wait: `_stopRemote` (line 267) discards the process
handle returned by `_runRemote` without calling `communicate` or `wait`. -/
theorem C9_counterexample :
    _isLocal exP4 = false ∧ hasSpawn (stop exP4 w0).2 = true ∧
    hasWait (stop exP4 w0).2 = false := by decide

/-- C9, amended.  Run-mode remote dispatch blocks: `_launchRemote` calls
`communicate`, so its trace contains a wait for the spawned helper.
Stop-mode does not: for every remote protocol, `stop` spawns the helper
and returns without waiting for it. -/
theorem C9_remote_stop_no_wait (p : Protocol) (w : World)
    (hL : _isLocal p = false) :
    hasWait (_launchRemote p w).2 = true ∧
    hasSpawn (stop p w).2 = true ∧
    hasWait (stop p w).2 = false := by
  refine ⟨?_, ?_, ?_⟩ <;>
    simp [_launchRemote, _runRemote, stop, _stopRemote, hL, hasWait, hasSpawn,
      isWaitEff, isSpawnEff]

/-- C9, witness: the amended theorem at the concrete remote protocol
`exP4`. -/
theorem C9_remote_stop_no_wait_witness :
    hasWait (_launchRemote exP4 w0).2 = true ∧
    hasSpawn (stop exP4 w0).2 = true ∧
    hasWait (stop exP4 w0).2 = false :=
  C9_remote_stop_no_wait exP4 w0 (by decide)

/-- Lookup after an overwrite finds the new contents. -/
theorem dictGet_setAssoc : ∀ (l : List (String × String)) (k v : String),
    dictGet (setAssoc l k v) k = some v
  | [], k, v => by simp [setAssoc, dictGet]
  | (k', v') :: rest, k, v => by
      by_cases h : k' = k
      · simp [setAssoc, dictGet, h]
      · simp [setAssoc, dictGet, h, dictGet_setAssoc rest k v]

/-- Filesystem state after the script write of `_submit`: truncate on
open, then the full contents. -/
def submitFS (fs : FS) (t p : String) : FS :=
  setFile (makeFilePath (setFile fs p "") p) p (t ++ "\n\n")

/-- Trace of `_submit` up to and including the spawn of the submission
command and the wait for it. -/
def submitEffs (p t cmd : String) : List Effect :=
  [Effect.fsOpenW p, Effect.mkdirs p, Effect.fsWrite p (t ++ "\n\n")] ++
    [Effect.msg ("** Submitting to queue: '" ++ greenStr cmd ++ "'"),
     Effect.spawn cmd true false, Effect.waitFor cmd]

/-- Tail of `_submit` once both templates rendered (to `t` and `cmd`) and
the script file write succeeded: parse the output of the spawned command
and either report the job id or fall to the warning path. -/
def submitCore (w : World) (fs : FS) (t p cmd : String) :
    Except PyErr Int × FS × List Effect :=
  match searchMarkerNum [] (w.procs cmd).stdout.data with
  | some jobNum =>
      if (w.procs cmd).returncode = 0 then
        (Except.ok (Int.ofNat jobNum), submitFS fs t p,
         submitEffs p t cmd ++
           [Effect.msg ("Launched job with id " ++ toString jobNum)])
      else submitFail (w.procs cmd).stdout (submitFS fs t p) (submitEffs p t cmd)
  | none => submitFail (w.procs cmd).stdout (submitFS fs t p) (submitEffs p t cmd)

/-- Reduction of `_submit` on the path where both templates render and the
script directory exists. -/
theorem _submit_eq_core (cfg : HostConfig) (d : Dict) (w : World) (fs : FS)
    (t p cmd : String)
    (h1 : renderTemplate cfg.submitTemplate d = Except.ok t)
    (h2 : dictGet d "JOB_SCRIPT" = some p)
    (h3 : dirExists fs (parentOf p) = true)
    (h4 : renderTemplate cfg.submitCommand d = Except.ok cmd) :
    _submit cfg d w fs = submitCore w fs t p cmd := by
  unfold _submit submitCore submitFS submitEffs
  rw [h1, h2, h4]
  dsimp only
  rw [h3]
  rfl

/-- Empty filesystem: no directories, no files. -/
def fs0 : FS := { dirs := [], files := [] }

/-- Submission dictionary of the concrete queue examples. -/
def exSubmitDict : Dict := [("JOB_SCRIPT", "job.sh")]

/-- World in which the rendered submission command prints a parsable
launch line and exits 0. -/
def wQ : World :=
  { procs := fun c =>
      if c = "qsub job.sh" then
        { stdout := "Launched job with id 12345\n", stderr := "",
          returncode := 0, pid := 9 }
      else defaultBeh }

/-- World in which the rendered submission command prints no digits and
exits nonzero (a clean soft failure). -/
def wQF : World :=
  { procs := fun c =>
      if c = "qsub job.sh" then
        { stdout := "no id here", stderr := "", returncode := 1, pid := 9 }
      else defaultBeh }

/-- World in which the rendered submission command exits 0 but prints a
single non-ASCII byte (0xFF) and nothing else. -/
def wFF : World :=
  { procs := fun c =>
      if c = "qsub job.sh" then
        { stdout := "\xff", stderr := "", returncode := 0, pid := 9 }
      else defaultBeh }

/-- C3, counterexample.  The claim says a submission whose output has no
digit run returns UNKNOWN with a warning and never raises.  In `wFF` the
spawned command exits 0 and prints the single byte 0xFF: no digit run is
found, and building the warning calls `out.decode()` (line 235), which
raises `UnicodeDecodeError` under the default ASCII codec instead of
returning UNKNOWN. -/
theorem C3_counterexample :
    (_submit localCfg exSubmitDict wFF fs0).1 =
      Except.error PyErr.unicodeDecodeError ∧
    searchMarkerNum [] ("\xff".data) = none ∧
    (wFF.procs "qsub job.sh").returncode = 0 := by decide

/-- C3, amended.  Provided the captured output is ASCII, queue submission
never raises: when the spawned process exits nonzero or the output holds
no run of decimal digits, it returns UNKNOWN_JOBID and prints the warning;
otherwise it returns the value of the first run of decimal digits of the
output.  With a non-ASCII byte in the output the warning path itself
raises UnicodeDecodeError (see the counterexample). -/
theorem C3_submit_softfail (cfg : HostConfig) (d : Dict) (w : World) (fs : FS)
    (t p cmd : String)
    (h1 : renderTemplate cfg.submitTemplate d = Except.ok t)
    (h2 : dictGet d "JOB_SCRIPT" = some p)
    (h3 : dirExists fs (parentOf p) = true)
    (h4 : renderTemplate cfg.submitCommand d = Except.ok cmd)
    (ha : asciiOnly (w.procs cmd).stdout = true) :
    ((¬ (w.procs cmd).returncode = 0 ∨
        searchMarkerNum [] (w.procs cmd).stdout.data = none) →
      (_submit cfg d w fs).1 = Except.ok UNKNOWN_JOBID ∧
      Effect.msg (submitWarnMsg (w.procs cmd).stdout) ∈ (_submit cfg d w fs).2.2) ∧
    (∀ jn, (w.procs cmd).returncode = 0 →
      searchMarkerNum [] (w.procs cmd).stdout.data = some jn →
      (_submit cfg d w fs).1 = Except.ok (Int.ofNat jn)) := by
  rw [_submit_eq_core cfg d w fs t p cmd h1 h2 h3 h4]
  unfold submitCore
  constructor
  · intro hcase
    cases hm : searchMarkerNum [] (w.procs cmd).stdout.data with
    | none => simp [submitFail, ha, submitEffs]
    | some jn =>
      rcases hcase with hrc | hnone
      · simp [submitFail, ha, submitEffs, hrc]
      · rw [hm] at hnone
        cases hnone
  · intro jn hrc hm
    simp [hm, hrc]

/-- C3, witness: in the world `wQ` the submission output is
"Launched job with id 12345" and the amended theorem yields job id
12345. -/
theorem C3_submit_softfail_witness :
    (_submit localCfg exSubmitDict wQ fs0).1 = Except.ok (Int.ofNat 12345) :=
  (C3_submit_softfail localCfg exSubmitDict wQ fs0 "#!/bin/bash" "job.sh"
    "qsub job.sh" (by decide) (by decide) (by decide) (by decide)
    (by decide)).2 12345 (by decide) (by decide)

/-- Submission dictionary whose script path sits in a directory that does
not exist yet. -/
def exSubmitDictDeep : Dict := [("JOB_SCRIPT", "missing/dir/job.sh")]

/-- C6, code-bug evaluation.  The claim (and the source's own FIXME
"CREATE THE PATH FIRST" at line 210) wants the missing parent directories
created before the file handle is acquired, but line 212 opens the script
file BEFORE line 214 calls `makeFilePath`: with the parent directory
absent the open raises IOError, no write happens, while running
`makeFilePath` first would have made the parent exist. -/
theorem C6_bug_eval :
    (_submit localCfg exSubmitDictDeep w0 fs0).1 =
      Except.error (PyErr.ioError "missing/dir/job.sh") ∧
    (_submit localCfg exSubmitDictDeep w0 fs0).2.1 = fs0 ∧
    hasWrite (_submit localCfg exSubmitDictDeep w0 fs0).2.2 = false ∧
    dirExists (makeFilePath fs0 "missing/dir/job.sh") "missing/dir" = true := by
  decide

/-- Host configuration whose submission COMMAND references a placeholder
missing from every dictionary used with it. -/
def cfgCmdMissing : HostConfig :=
  { localCfg with submitCommand := [TmplPart.lit "qsub ", TmplPart.ph "MISSING"] }

/-- Host configuration whose submission SCRIPT template references a
missing placeholder. -/
def cfgTplMissing : HostConfig :=
  { localCfg with submitTemplate := [TmplPart.ph "MISSING"] }

/-- C7, counterexample.  The claim says a template referencing an absent
placeholder fails with no filesystem write performed.  That holds for the
script template, but the submission COMMAND template is only rendered at
line 221, after the script file has been written (lines 212-218): with
`cfgCmdMissing` the submission aborts with KeyError yet the script file
sits on disk. -/
theorem C7_counterexample :
    (_submit cfgCmdMissing exSubmitDict w0 fs0).1 =
      Except.error (PyErr.keyError "MISSING") ∧
    dictGet (_submit cfgCmdMissing exSubmitDict w0 fs0).2.1.files "job.sh" =
      some "#!/bin/bash\n\n" ∧
    fs0.files = [] ∧
    hasSpawn (_submit cfgCmdMissing exSubmitDict w0 fs0).2.2 = false := by decide

/-- C7, amended.  A placeholder absent from the merged descriptor is a
hard KeyError and no submission process is ever spawned; when the SCRIPT
template is the offender the failure precedes any filesystem activity
(state and trace unchanged), but when only the submission COMMAND template
is the offender the script file has already been written. -/
theorem C7_missing_placeholder (cfg : HostConfig) (d : Dict) (w : World)
    (fs : FS) (k : String) :
    (renderTemplate cfg.submitTemplate d = Except.error (PyErr.keyError k) →
      _submit cfg d w fs = (Except.error (PyErr.keyError k), fs, [])) ∧
    (∀ t p, renderTemplate cfg.submitTemplate d = Except.ok t →
      dictGet d "JOB_SCRIPT" = some p →
      dirExists fs (parentOf p) = true →
      renderTemplate cfg.submitCommand d = Except.error (PyErr.keyError k) →
      (_submit cfg d w fs).1 = Except.error (PyErr.keyError k) ∧
      hasSpawn (_submit cfg d w fs).2.2 = false ∧
      hasWait (_submit cfg d w fs).2.2 = false) := by
  constructor
  · intro h
    unfold _submit
    rw [h]
  · intro t p h1 h2 h3 h4
    unfold _submit
    rw [h1, h2, h4]
    dsimp only
    rw [h3]
    exact ⟨rfl, rfl, rfl⟩

/-- C7, witness: the amended theorem's script-template case at a concrete
configuration, with the state and trace untouched. -/
theorem C7_missing_placeholder_witness :
    _submit cfgTplMissing exSubmitDict w0 fs0 =
      (Except.error (PyErr.keyError "MISSING"), fs0, []) :=
  (C7_missing_placeholder cfgTplMissing exSubmitDict w0 fs0 "MISSING").1
    (by decide)

/-- C10, confirmed.  Whenever both templates render, the trace of a queue
submission opens and writes the script file (contents: rendered script
plus a blank line) strictly before spawning the submission command, and
the remaining tail of the trace neither writes nor spawns; moreover when
the submission soft-fails with UNKNOWN the written script file is still
present, unchanged, in the final filesystem. -/
theorem C10_write_before_spawn (cfg : HostConfig) (d : Dict) (w : World)
    (fs : FS) (t p cmd : String)
    (h1 : renderTemplate cfg.submitTemplate d = Except.ok t)
    (h2 : dictGet d "JOB_SCRIPT" = some p)
    (h3 : dirExists fs (parentOf p) = true)
    (h4 : renderTemplate cfg.submitCommand d = Except.ok cmd) :
    (∃ tail, (_submit cfg d w fs).2.2 =
        [Effect.fsOpenW p, Effect.mkdirs p, Effect.fsWrite p (t ++ "\n\n"),
         Effect.msg ("** Submitting to queue: '" ++ greenStr cmd ++ "'"),
         Effect.spawn cmd true false, Effect.waitFor cmd] ++ tail ∧
      hasWrite tail = false ∧ hasSpawn tail = false) ∧
    ((_submit cfg d w fs).1 = Except.ok UNKNOWN_JOBID →
      dictGet (_submit cfg d w fs).2.1.files p = some (t ++ "\n\n")) := by
  rw [_submit_eq_core cfg d w fs t p cmd h1 h2 h3 h4]
  have hfile : dictGet (submitFS fs t p).files p = some (t ++ "\n\n") := by
    simp [submitFS, setFile, makeFilePath, dictGet_setAssoc]
  unfold submitCore
  cases hm : searchMarkerNum [] (w.procs cmd).stdout.data with
  | none =>
    dsimp only
    unfold submitFail
    by_cases ha : asciiOnly (w.procs cmd).stdout = true
    · rw [if_pos ha]
      exact ⟨⟨[Effect.msg (submitWarnMsg (w.procs cmd).stdout)],
        by simp [submitEffs], rfl, rfl⟩, fun _ => hfile⟩
    · rw [if_neg ha]
      exact ⟨⟨[], by simp [submitEffs], rfl, rfl⟩, fun _ => hfile⟩
  | some jn =>
    dsimp only
    by_cases hrc : (w.procs cmd).returncode = 0
    · rw [if_pos hrc]
      exact ⟨⟨[Effect.msg ("Launched job with id " ++ toString jn)],
        by simp [submitEffs], rfl, rfl⟩, fun _ => hfile⟩
    · rw [if_neg hrc]
      unfold submitFail
      by_cases ha : asciiOnly (w.procs cmd).stdout = true
      · rw [if_pos ha]
        exact ⟨⟨[Effect.msg (submitWarnMsg (w.procs cmd).stdout)],
          by simp [submitEffs], rfl, rfl⟩, fun _ => hfile⟩
      · rw [if_neg ha]
        exact ⟨⟨[], by simp [submitEffs], rfl, rfl⟩, fun _ => hfile⟩

/-- C10, witness: in the soft-failing world `wQF` the submission returns
UNKNOWN and the script file is still on disk with the rendered contents
and the blank trailing line. -/
theorem C10_write_before_spawn_witness :
    dictGet (_submit localCfg exSubmitDict wQF fs0).2.1.files "job.sh" =
      some "#!/bin/bash\n\n" :=
  (C10_write_before_spawn localCfg exSubmitDict wQF fs0 "#!/bin/bash" "job.sh"
    "qsub job.sh" (by decide) (by decide) (by decide) (by decide)).2 (by decide)

end Pw
